import Mathlib

/-!
Shallow embedding of the zenodopy `Client` (src/zenodopy/zenodopy.py).

JSON values are modelled by the inductive `JValue`; Python dictionaries that
come from `json.loads` are association lists preserving insertion order with
unique keys, and `dict.update` / item assignment are modelled by `setKey` /
`dictUpdate`.  HTTP traffic is modelled by passing the responses the server
would give as explicit arguments (the oracle) and collecting the requests the
code issues as a trace, so that claims about which requests are sent and with
which bodies can be stated.  Python exceptions are modelled by `Except PyErr`.
-/

namespace Zenodopy

/-- JSON values, as produced by `response.json()`. -/
inductive JValue where
  | str (s : String)
  | num (n : Int)
  | bool (b : Bool)
  | null
  | arr (xs : List JValue)
  | obj (fields : List (String × JValue))
deriving Repr, Inhabited

/-- Lookup of a key in a Python dict (association list, first match). -/
def lookupKey : List (String × JValue) → String → Option JValue
  | [], _ => none
  | (k, v) :: rest, key => if k = key then some v else lookupKey rest key

/-- Python `d[key] = v`: replace the value of the first (in a Python dict,
the only) occurrence of the key in place, keeping insertion order, or
append the new binding at the end when the key is absent. -/
def setKey : List (String × JValue) → String → JValue → List (String × JValue)
  | [], k, v => [(k, v)]
  | (a, b) :: rest, k, v =>
    if a = k then (k, v) :: rest else (a, b) :: setKey rest k v

/-- Python `cur.update(new)`: set every binding of `new` in `cur`, in order. -/
def dictUpdate (cur new : List (String × JValue)) : List (String × JValue) :=
  new.foldl (fun acc p => setKey acc p.1 p.2) cur

/-- Python truthiness of a JSON value (`if x:`): empty string, zero, `False`,
`None`, empty list and empty dict are falsy. -/
def JValue.truthy : JValue → Bool
  | .str s => s ≠ ""
  | .num n => n ≠ 0
  | .bool b => b
  | .null => false
  | .arr xs => !xs.isEmpty
  | .obj fields => !fields.isEmpty

/-- Python's `x or default` for an optional string argument: `None` and the
empty string are falsy and give the default. -/
def pyOr (x : Option String) (default : String) : String :=
  match x with
  | none => default
  | some s => if s = "" then default else s

/-- Split a character list at every occurrence of a separator (the result
always has one more group than there are separators). -/
def chSplit (sep : Char) : List Char → List (List Char)
  | [] => [[]]
  | c :: rest =>
    match chSplit sep rest with
    | [] => [[]]
    | grp :: grps => if c = sep then [] :: grp :: grps else (c :: grp) :: grps

/-- Python `s.split(sep)` for a one-character separator. -/
def strSplit (s : String) (sep : Char) : List String :=
  (chSplit sep s.toList).map String.mk

/-- Python `s.startswith(p)`. -/
def strStartsWith (s p : String) : Bool := p.toList.isPrefixOf s.toList

/-- Python `s.endswith(p)`. -/
def strEndsWith (s p : String) : Bool :=
  p.toList.reverse.isPrefixOf s.toList.reverse

/-- Python `s.lower()` (ASCII, which is all the client compares). -/
def strLower (s : String) : String := String.mk (s.toList.map Char.toLower)

/-- Python `s.strip()` on a character list. -/
def chTrim (l : List Char) : List Char :=
  ((l.dropWhile Char.isWhitespace).reverse.dropWhile Char.isWhitespace).reverse

/-- Numeric value of a digit string. -/
def digitsVal (ds : List Char) : Nat :=
  ds.foldl (fun acc c => acc * 10 + (c.toNat - '0'.toNat)) 0

/-- Python exceptions raised by the client code. -/
inductive PyErr where
  | httpError (status : Int)
  | keyError (key : String)
  | typeError
  | valueError
  | jsonDecodeError
  | fileNotFoundError (msg : String)
  | exception (msg : String)
deriving Repr, DecidableEq

/-- Python `d[key]` on a JSON value: `KeyError` when the key is missing,
`TypeError` when the value is not a dict. -/
def JValue.item : JValue → String → Except PyErr JValue
  | .obj fields, key =>
    match lookupKey fields key with
    | some v => .ok v
    | none => .error (.keyError key)
  | _, _ => .error .typeError

/-- Python `d.get(key, default)` on a JSON dict (non-dicts raise). -/
def JValue.getD : JValue → String → JValue → Except PyErr JValue
  | .obj fields, key, default => .ok ((lookupKey fields key).getD default)
  | _, _, _ => .error .typeError

/-- An HTTP response handed to the client by the oracle.  `body` is `none`
when the response has no JSON body (e.g. a 204), in which case `.json()`
raises a decode error. -/
structure HttpResponse where
  status : Int
  body : Option JValue
deriving Repr, Inhabited

/-- `requests`' `r.ok`: true iff the status code is below 400. -/
def HttpResponse.ok (r : HttpResponse) : Bool := r.status < 400

/-- `r.json()`: the parsed body, or a decode error when there is none. -/
def HttpResponse.json (r : HttpResponse) : Except PyErr JValue :=
  match r.body with
  | some j => .ok j
  | none => .error .jsonDecodeError

/-- `r.raise_for_status()`: raises `HTTPError` for 4xx/5xx statuses and
returns `None` otherwise. -/
def HttpResponse.raise_for_status (r : HttpResponse) : Except PyErr JValue :=
  if 400 ≤ r.status then .error (.httpError r.status) else .ok .null

/-- HTTP method of an issued request. -/
inductive HttpMethod where
  | get
  | post
  | put
  | delete
deriving Repr, DecidableEq

/-- Body of an issued request: none, a JSON document, or the raw bytes of a
local file (identified by its path). -/
inductive RequestBody where
  | empty
  | json (j : JValue)
  | fileBytes (path : String)
deriving Repr, Inhabited

/-- One observable action of the client: an HTTP request, a console print, or
a local filesystem effect (archive build, file write, file removal). -/
inductive Action where
  | request (method : HttpMethod) (url : String) (body : RequestBody)
  | print (msg : String)
  | buildZip (output_file source_dir : String)
  | buildTar (output_file source_dir : String)
  | writeFile (path : String)
  | removeFile (path : String)
deriving Repr, Inhabited

/-- The mutable state of a `Client` instance (`self`).  The bearer token is
kept abstract; `deposition_id` is an optional integer as in the source. -/
structure ClientState where
  endpoint : String
  doi_pattern : String
  title : Option String
  bucket : Option String
  deposition_id : Option Int
  sandbox : Bool
  token : Option String
  concept_id : Option String
  associated : Bool
deriving Repr, DecidableEq

/-- `Client.__init__(title, bucket, deposition_id, sandbox, token)`.  The
token read from the configuration file (the `_read_from_config` property,
an external collaborator reading `~/.zenodo_token`) is passed in as
`configToken` and used only when `token is None`.  Note that `associated`
is set to `False` unconditionally. -/
def clientInit (title bucket : Option String) (deposition_id : Option Int)
    (sandbox : Bool) (token : Option String) (configToken : Option String) :
    ClientState :=
  { endpoint := if sandbox then "https://sandbox.zenodo.org/api"
                else "https://zenodo.org/api"
    doi_pattern := if sandbox then "^10\\.5072/zenodo\\.\\d+$"
                   else "^10\\.5281/zenodo\\.\\d+$"
    title := title
    bucket := bucket
    deposition_id := deposition_id
    sandbox := sandbox
    token := match token with
             | none => configToken
             | some t => some t
    concept_id := none
    associated := false }

/-- The invariant claimed by the spec for a client session:
`associated == (deposition_id is not None)`. -/
def associatedInvariant (c : ClientState) : Prop :=
  c.associated = c.deposition_id.isSome

instance (c : ClientState) : Decidable (associatedInvariant c) := by
  unfold associatedInvariant; infer_instance

/-- `Client._delete_project(dep_id)`: DELETE the deposition (defaulting to
the associated one); on a 204 print a success message, otherwise print and
raise.  When the deleted id is the associated one, reset `title`, `bucket`,
`deposition_id` and `concept_id` to `None` (the `associated` flag is not
touched). -/
def _delete_project (c : ClientState) (dep_id : Option Int)
    (deleteResp : HttpResponse) :
    List Action × Except PyErr ClientState :=
  let dep_id := match dep_id with
                | none => c.deposition_id
                | some d => some d
  let depStr := match dep_id with
                | none => "None"
                | some d => toString d
  let req := Action.request .delete
      (c.endpoint ++ "/deposit/depositions/" ++ depStr) .empty
  if deleteResp.status = 204 then
    let acts := [req, .print ("Deposition " ++ depStr ++ " is deleted")]
    if dep_id = c.deposition_id then
      (acts, .ok { c with title := none, bucket := none,
                          deposition_id := none, concept_id := none })
    else
      (acts, .ok c)
  else
    ([req, .print "Project is still available."],
     .error (.exception ("Failed to delete deposition. Status code: " ++
       toString deleteResp.status)))

/-- Result of running a piece of client code: the trace of actions it
performed (kept even when an exception is raised) together with either the
produced value or the Python exception. -/
def ZRes (α : Type) : Type := List Action × Except PyErr α

/-- Return a value with an empty trace. -/
def zok {α : Type} (a : α) : ZRes α := ([], .ok a)

/-- Raise a Python exception with an empty trace. -/
def zfail {α : Type} (e : PyErr) : ZRes α := ([], .error e)

/-- Perform one observable action. -/
def zact (a : Action) : ZRes Unit := ([a], .ok ())

/-- Sequence two traced computations; the trace of the first is kept even
when it raises, and the second runs only when the first succeeded. -/
def zbind {α β : Type} (x : ZRes α) (f : α → ZRes β) : ZRes β :=
  match x with
  | (tr, .error e) => (tr, .error e)
  | (tr, .ok a) => (tr ++ (f a).1, (f a).2)

instance : Monad ZRes where
  pure := zok
  bind := zbind

/-- Lift an untraced `Except` computation. -/
def zlift {α : Type} (x : Except PyErr α) : ZRes α := ([], x)

/-- Python's `str()` rendering of a JSON value as interpolated into URLs
and messages by f-strings (arrays and objects do not occur in the URLs the
client builds, so their rendering is schematic). -/
def pyStr : JValue → String
  | .str s => s
  | .num n => toString n
  | .bool b => if b then "True" else "False"
  | .null => "None"
  | .arr _ => "[...]"
  | .obj _ => "\x7b...\x7d"

/-- Coerce a JSON value to the integer it carries.  Deposition ids are
modelled as integers (as in every response shape the code consumes); a
non-integer in an id position is outside the model. -/
def JValue.asInt : JValue → Except PyErr Int
  | .num n => .ok n
  | _ => .error .typeError

/-- Coerce a JSON value to the string it carries.  Titles, bucket URLs and
concept ids are modelled as strings, as in the consumed response shapes. -/
def JValue.asStr : JValue → Except PyErr String
  | .str s => .ok s
  | _ => .error .typeError

/-- Python `x is None` on a JSON value (`json.loads` decodes JSON null as
Python `None`). -/
def JValue.isNull : JValue → Bool
  | .null => true
  | _ => false

/-- Rendering of an optional deposition id into a URL, as an f-string
does (`None` renders literally). -/
def optIdStr : Option Int → String
  | none => "None"
  | some d => toString d

/-- `Client._get_depositions_by_id(dep_id)`: GET the deposition; return the
parsed JSON when the response is ok, otherwise `raise_for_status` (which
raises, since a non-ok status is at least 400). -/
def _get_depositions_by_id (c : ClientState) (dep_id : Option Int)
    (resp : HttpResponse) : ZRes JValue := do
  zact (.request .get
    (c.endpoint ++ "/deposit/depositions/" ++ optIdStr dep_id) .empty)
  if resp.ok then zlift resp.json else zlift resp.raise_for_status

/-- `Client._get_bucket_by_id(dep_id)`: GET the deposition and return
`r.json()['links']['bucket']`; raise on a non-ok status. -/
def _get_bucket_by_id (c : ClientState) (dep_id : Option Int)
    (resp : HttpResponse) : ZRes JValue := do
  zact (.request .get
    (c.endpoint ++ "/deposit/depositions/" ++ optIdStr dep_id) .empty)
  if resp.ok then do
    let j ← zlift resp.json
    let links ← zlift (j.item "links")
    zlift (links.item "bucket")
  else zlift resp.raise_for_status

/-- The kwargs loop shared by `change_metadata` and `_set_metadata`: a
dict-valued kwarg is merged into the (possibly missing, defaulted to empty)
dict already stored under that key; any other value simply overwrites.  A
non-dict already stored under a dict-valued kwarg makes Python's
`metadata[key].update(value)` raise (`AttributeError`, modelled as a
type error). -/
def applyKwargs : List (String × JValue) → List (String × JValue) →
    Except PyErr (List (String × JValue))
  | metadata, [] => .ok metadata
  | metadata, (key, value) :: rest =>
    match value with
    | .obj newFields =>
      match lookupKey metadata key with
      | some (.obj oldFields) =>
        applyKwargs (setKey metadata key (.obj (dictUpdate oldFields newFields))) rest
      | none =>
        applyKwargs (setKey metadata key (.obj (dictUpdate [] newFields))) rest
      | some _ => .error .typeError
    | _ => applyKwargs (setKey metadata key value) rest

/-- `Client.change_metadata(dep_id, title, upload_type, description,
creator, **kwargs)`: build a complete metadata object (placeholders for any
argument that is absent or falsy), apply the kwargs, and PUT
`{"metadata": ...}` to the deposition; return the server's JSON on success
and print/raise otherwise. -/
def change_metadata (c : ClientState) (dep_id : Option Int)
    (title upload_type description creator : Option String)
    (kwargs : List (String × JValue)) (putResp : HttpResponse) :
    ZRes JValue := do
  let metadata : List (String × JValue) :=
    [("title", .str (pyOr title "Title goes here")),
     ("upload_type", .str (pyOr upload_type "other")),
     ("description", .str (pyOr description "Description goes here")),
     ("creators", .arr [.obj [("name", .str (pyOr creator "Creator goes here"))]])]
  let metadata ← zlift (applyKwargs metadata kwargs)
  let data := JValue.obj [("metadata", .obj metadata)]
  let url := c.endpoint ++ "/deposit/depositions/" ++ optIdStr dep_id
  zact (.request .put url (.json data))
  if putResp.ok then
    zlift putResp.json
  else do
    zact (.print "response text")
    zlift putResp.raise_for_status

/-- `Client.create_project(title, upload_type, description)`: POST an empty
JSON object to the depositions collection; on success delegate the metadata
PUT to `change_metadata` and associate the session with the id and bucket
from the POST response; on a non-ok POST print a message and leave the
state unchanged. -/
def create_project (c : ClientState) (title upload_type description : Option String)
    (postResp putResp : HttpResponse) : ZRes ClientState := do
  zact (.request .post (c.endpoint ++ "/deposit/depositions") (.json (.obj [])))
  if postResp.ok then do
    let j ← zlift postResp.json
    let idv ← zlift (j.item "id")
    let deposition_id ← zlift idv.asInt
    let _ ← change_metadata c (some deposition_id) title upload_type description none [] putResp
    let j2 ← zlift postResp.json
    let idv2 ← zlift (j2.item "id")
    let dep2 ← zlift idv2.asInt
    let links ← zlift (j2.item "links")
    let bucketv ← zlift (links.item "bucket")
    let bucket ← zlift bucketv.asStr
    pure { c with deposition_id := some dep2, bucket := some bucket,
                  title := title, associated := true }
  else do
    zact (.print "** Project not created, something went wrong. Check that your ACCESS_TOKEN is in ~/.zenodo_token ")
    pure c

/-- `Client._unset_project()`: reset the session to the unassociated
defaults, with no network call. -/
def _unset_project (c : ClientState) : ClientState :=
  { c with title := none, bucket := none, deposition_id := none,
           concept_id := none, associated := false }

/-- `Client.set_project(dep_id)`: unset, GET the deposition, and on success
populate `title`, `bucket` (via a second GET of the same resource through
`_get_bucket_by_id`), `deposition_id`, `concept_id` and `associated`.
A JSON-null body (Python `None`) prints a message instead.  When a field
access raises, the exception propagates to the caller (the partial
mutation Python leaves behind in that case is not modelled). -/
def set_project (c : ClientState) (dep_id : Int) (resp1 resp2 : HttpResponse) :
    ZRes ClientState := do
  let c := _unset_project c
  let projects ← _get_depositions_by_id c (some dep_id) resp1
  if !projects.isNull then do
    let titlev ← zlift (projects.item "title")
    let title ← zlift titlev.asStr
    let bucketv ← _get_bucket_by_id c (some dep_id) resp2
    let bucket ← zlift bucketv.asStr
    let conceptv ← zlift (projects.item "conceptrecid")
    let concept ← zlift conceptv.asStr
    pure { c with title := some title, bucket := some bucket,
                  deposition_id := some dep_id, concept_id := some concept,
                  associated := true }
  else do
    zact (.print (" ** Deposition ID: " ++ toString dep_id ++
      " does not exist in your projects  ** "))
    pure c

/-- `Client._is_published(dep_id)`: GET the deposition; on a 200 return
`deposition_data.get('submitted', '')` (any JSON value), on a 404 or other
status print a message and return Python `None` (modelled as JSON null).
Network exceptions are outside the model. -/
def _is_published (c : ClientState) (dep_id : Option Int)
    (resp : HttpResponse) : ZRes JValue := do
  let dep_id := match dep_id with
                | none => c.deposition_id
                | some d => some d
  match dep_id with
  | none => do
    zact (.print "No deposition ID provided or set in the class.")
    pure .null
  | some d => do
    zact (.request .get
      (c.endpoint ++ "/deposit/depositions/" ++ toString d) .empty)
    if resp.status = 200 then do
      let j ← zlift resp.json
      zlift (j.getD "submitted" (.str ""))
    else if resp.status = 404 then do
      zact (.print ("Deposition " ++ toString d ++ " not found."))
      pure .null
    else do
      zact (.print ("Error checking deposition " ++ toString d ++
        ". Status code: " ++ toString resp.status))
      pure .null

/-- `Client.publish()`: refuse when unassociated; otherwise GET the
deposition, require a publish link (else print and return `None`), refuse
with a message when `is_published` is truthy (no publish POST is issued),
and otherwise POST to the publish link, raising for a bad status, and
return the response JSON.  Every exception in the body is caught and turned
into a printed message with result `None`. -/
def publish (c : ClientState) (getResp isPubResp postResp : HttpResponse) :
    List Action × Option JValue :=
  if !c.associated then
    ([.print "Zenodo Client not associated "], none)
  else
    let body : ZRes (Option JValue) := do
      let deposition_data ← _get_depositions_by_id c c.deposition_id getResp
      let links ← zlift (deposition_data.item "links")
      let url_action ← zlift (links.getD "publish" .null)
      if !url_action.truthy then do
        zact (.print "Publish link not found. The deposition might not be ready for publishing.")
        pure none
      else do
        let isPub ← _is_published c none isPubResp
        if isPub.truthy then do
          zact (.print "This deposition was published yet. ")
          zact (.print "To publish it again please remove 'doi' entry from metadata.")
          pure none
        else do
          zact (.request .post (pyStr url_action) .empty)
          let _ ← zlift postResp.raise_for_status
          zact (.print "Deposition published successfully!")
          let j ← zlift postResp.json
          pure (some j)
    match body with
    | (tr, .ok v) => (tr, v)
    | (tr, .error (.httpError s)) =>
      (tr ++ [.print ("HTTP error occurred: " ++ toString s)], none)
    | (tr, .error (.keyError k)) =>
      (tr ++ [.print ("KeyError: " ++ k ++ " Failed to retrieve 'publish' link.")], none)
    | (tr, .error _) => (tr ++ [.print "An error occurred."], none)

/-- `os.path.basename`: the part after the last slash. -/
def pyBasename (p : String) : String := (strSplit p '/').getLastD ""

/-- f-string rendering of an optional string (`None` renders literally). -/
def pyOptStr : Option String → String
  | none => "None"
  | some s => s

/-- `Client.upload_file(file_path, custom_filename, publish)`: guarded by
`associated`, a supplied and existing path, and a present bucket; PUT the
file bytes to `bucket/filename` and print the outcome; chain into
`publish()` when requested.  `fileExists` models the
`Path(file_path).exists()` check.  No field of `self` is assigned
anywhere in the method, so the state is returned as received. -/
def upload_file (c : ClientState) (file_path : Option String)
    (custom_filename : Option String) (publishFlag : Bool) (fileExists : Bool)
    (uploadResp pubGetResp pubIsPubResp pubPostResp : HttpResponse) :
    List Action × ClientState :=
  if !c.associated then
    ([.print "Zenodo Client not associated"], c)
  else
    match file_path with
    | none => ([.print "You need to supply a path"], c)
    | some path =>
      if !fileExists then
        ([.print (path ++ " does not exist. Please check you entered the correct path")], c)
      else
        match c.bucket with
        | none =>
          ([.print "You need to create a project with zeno.create_project() or set a project zeno.set_project() before uploading a file"], c)
        | some bucket_link =>
          let filename := pyOr custom_filename (pyBasename path)
          let putAct := Action.request .put (bucket_link ++ "/" ++ filename)
            (.fileBytes path)
          let outcome := if uploadResp.ok then
              [Action.print ("File successfully uploaded as " ++ filename ++ "!")]
            else
              [Action.print "Oh no! Something went wrong",
               Action.print ("Error: " ++ toString uploadResp.status ++ " - response text")]
          let pubActs := if publishFlag then
              (publish c pubGetResp pubIsPubResp pubPostResp).1
            else []
          (putAct :: outcome ++ pubActs, c)

/-- `Client.delete_file(filename)`: guarded by `associated`; DELETE
`bucket/filename` (a `None` bucket or filename renders literally into the
URL, as in the f-string).  No field of `self` is assigned. -/
def delete_file (c : ClientState) (filename : Option String) :
    List Action × ClientState :=
  if !c.associated then
    ([.print "Zenodo Client not associated "], c)
  else
    ([.request .delete
        (pyOptStr c.bucket ++ "/" ++ pyOptStr filename) .empty], c)

/-- ASCII letter or digit, the character class `[A-Z0-9]` of the URL regex
under `re.IGNORECASE`. -/
def urlAlnum (ch : Char) : Bool := ch.isAlpha || ch.isDigit

/-- One domain label of `validate_url`'s regex:
`[A-Z0-9](?:[A-Z0-9-]{0,61}[A-Z0-9])?`. -/
def validLabel (s : String) : Bool :=
  match s.toList with
  | [] => false
  | [ch] => urlAlnum ch
  | ch :: rest =>
    urlAlnum ch && urlAlnum (rest.getLastD ' ') &&
      (rest.dropLast.all fun d => urlAlnum d || d = '-') && s.length ≤ 63

/-- The final domain component of the regex:
`[A-Z]{2,6}\.?|[A-Z0-9-]{2,}\.?` (without the optional trailing dot). -/
def validTld (s : String) : Bool :=
  (2 ≤ s.length && s.length ≤ 6 && s.toList.all Char.isAlpha) ||
  (2 ≤ s.length && s.toList.all fun ch => urlAlnum ch || ch = '-')

/-- The domain alternative of the regex host:
`(?:[LABEL]\.)+(?:TLD\.?)`. -/
def validDomain (host : String) : Bool :=
  let host := if strEndsWith host "." then host.dropRight 1 else host
  let parts := strSplit host '.'
  2 ≤ parts.length && parts.dropLast.all validLabel && validTld (parts.getLastD "")

/-- The literal-IPv4 alternative of the regex host:
`\d{1,3}\.\d{1,3}\.\d{1,3}\.\d{1,3}`. -/
def validIp (host : String) : Bool :=
  let parts := strSplit host '.'
  parts.length = 4 &&
    parts.all fun p => 1 ≤ p.length && p.length ≤ 3 && p.toList.all Char.isDigit

/-- Host alternative of the regex: domain, `localhost`, or literal IPv4. -/
def validHost (h : String) : Bool :=
  strLower h = "localhost" || validIp h || validDomain h

/-- `(:\d+)?`: an optional `:port` with at least one digit. -/
def validHostPort (hp : String) : Bool :=
  match strSplit hp ':' with
  | [h] => validHost h
  | [h, p] => validHost h && 1 ≤ p.length && p.toList.all Char.isDigit
  | _ => false

/-- `(?:/?|[/?]\S+)$`: the path is empty, a single slash, or a slash or
question mark followed by at least one non-whitespace character. -/
def validPath (p : String) : Bool :=
  p = "" || p = "/" ||
    (match p.toList with
     | ch :: rest =>
       (ch = '/' || ch = '?') && !rest.isEmpty &&
         rest.all (fun d => !d.isWhitespace)
     | [] => false)

/-- `validate_url(url)`: the module-level regex check for an
`http(s)`/`ftp(s)` URL with a valid domain, `localhost` or literal IPv4
host, an optional port and an optional path, modelled as a recognizer of
the regex's language. -/
def validate_url (url : String) : Bool :=
  let lower := strLower url
  let rest :=
    if strStartsWith lower "https://" then some (url.drop 8)
    else if strStartsWith lower "http://" then some (url.drop 7)
    else if strStartsWith lower "ftps://" then some (url.drop 7)
    else if strStartsWith lower "ftp://" then some (url.drop 6)
    else none
  match rest with
  | none => false
  | some rest =>
    let chars := rest.toList
    let hostport := chars.takeWhile fun ch => ch ≠ '/' && ch ≠ '?'
    let path := chars.dropWhile fun ch => ch ≠ '/' && ch ≠ '?'
    validHostPort (String.mk hostport) && validPath (String.mk path)

/-- `Client.download_file(filename, dst_path)`: print (but do not return)
when unassociated or when no filename is supplied; when the bucket is
present and `validate_url` accepts it, GET `bucket/filename`; a supplied
`dst_path` must be an existing directory (`dstIsDir` models
`os.path.isdir`), otherwise `FileNotFoundError` is raised; on an ok GET
write the bytes, else print a message. -/
def download_file (c : ClientState) (filename : Option String)
    (dst_path : Option String) (dstIsDir : Bool) (getResp : HttpResponse) :
    List Action × Except PyErr Unit :=
  let preamble :=
    (if !c.associated then [Action.print "Zenodo Client not associated "] else []) ++
    (if filename = none then [Action.print " ** filename not supplied ** "] else [])
  match c.bucket with
  | none => (preamble, .ok ())
  | some bucket_link =>
    if validate_url bucket_link then
      let getAct := Action.request .get
        (bucket_link ++ "/" ++ pyOptStr filename) .empty
      let dstTruthy := match dst_path with
                       | none => false
                       | some s => s ≠ ""
      if dstTruthy && !dstIsDir then
        (preamble ++ [getAct],
         .error (.fileNotFoundError (pyOptStr dst_path ++ " does not exist")))
      else
        let target := if dstTruthy then pyOptStr dst_path ++ "/" ++ pyOptStr filename
                      else pyOptStr filename
        if getResp.ok then
          match filename with
          | none => (preamble ++ [getAct], .error .typeError)
          | some _ => (preamble ++ [getAct, .writeFile target], .ok ())
        else
          (preamble ++ [getAct,
            .print (" ** Something went wrong, check that " ++ target ++
              " is in your poject  ** ")], .ok ())
    else
      (preamble ++ [.print (" ** " ++ bucket_link ++ "/" ++ pyOptStr filename ++
        " is not a valid URL ** ")], .ok ())

/-- `pathlib.Path(p).name`: the last non-empty path component. -/
def pyName (p : String) : String :=
  ((strSplit p '/').filter fun s => !s.isEmpty).getLastD ""

/-- `pathlib.Path(p).suffixes`: the list of dot-extensions of the final
component (empty when the name ends in a dot; leading dots are not
suffixes). -/
def pySuffixes (p : String) : List String :=
  let name := pyName p
  if strEndsWith name "." then []
  else
    let stripped := String.mk (name.toList.dropWhile fun ch => ch = '.')
    ((strSplit stripped '.').drop 1).map fun s => "." ++ s

/-- `pathlib.Path(p).stem`: the final component without its last suffix
(kept whole when the last dot is leading, trailing or absent). -/
def pyStem (p : String) : String :=
  let name := pyName p
  let parts := strSplit name '.'
  if 2 ≤ parts.length && parts.getLastD "" ≠ "" &&
      !(parts.length = 2 && parts.headD "" = "") then
    String.intercalate "." parts.dropLast
  else name

/-- `Client.upload_zip(source_dir, output_file, publish)`: guard on
`associated` and an existing source directory; validate the output name's
joined extension against `['.zip']` (raising on anything else — note that
the branch appending a missing `.zip`, kept here as in the source, is
unreachable because an empty extension is not in the acceptable list);
raise when the computed output path already exists; build the archive,
delegate to `upload_file`, and remove the archive.  `sourceExists`,
`outputExists` and `parentExists` model the filesystem checks
(`os.makedirs` on a missing parent is folded into the build action). -/
def upload_zip (c : ClientState) (source_dir : String)
    (output_file : Option String) (publishFlag : Bool)
    (sourceExists outputExists : Bool)
    (uploadResp pubGetResp pubIsPubResp pubPostResp : HttpResponse) :
    List Action × Except PyErr Unit :=
  if !c.associated then
    ([.print "Zenodo Client not associated "], .ok ())
  else if !sourceExists then
    ([], .error (.fileNotFoundError (source_dir ++ " does not exist")))
  else
    let computed : Except PyErr String :=
      match output_file with
      | none => .ok (pyStem source_dir ++ ".zip")
      | some given =>
        let extension := String.join (pySuffixes given)
        if extension ≠ ".zip" then
          .error (.exception "Extension must be in ['.zip']")
        else if extension = "" then
          .ok (given ++ ".zip")
        else
          .ok given
    match computed with
    | .error e => ([], .error e)
    | .ok out =>
      if outputExists then
        ([], .error (.exception (out ++ " already exists. Please chance the name")))
      else
        let (upActs, _) := upload_file c (some out) none publishFlag true
          uploadResp pubGetResp pubIsPubResp pubPostResp
        ([Action.buildZip out source_dir] ++ upActs ++ [Action.removeFile out],
         .ok ())

/-- The fragment of Python `int(s)` reachable for version components: an
optionally signed, non-empty digit string after stripping surrounding
whitespace; anything else raises `ValueError`. -/
def pyInt (s : String) : Except PyErr Int :=
  let t := chTrim s.toList
  let core := match t with
              | '-' :: ds => (true, ds)
              | '+' :: ds => (false, ds)
              | ds => (false, ds)
  match core with
  | (neg, ds) =>
    if ds.isEmpty || !ds.all Char.isDigit then .error .valueError
    else .ok (if neg then -(digitsVal ds : Int) else (digitsVal ds : Int))

/-- The generator expression
`next((file for file in files if file['filename'] == filename), None)`:
scan the file entries in order, raising as Python does when an entry has no
`'filename'` key (a non-string value simply compares unequal). -/
def findFile : List JValue → String → Except PyErr (Option JValue)
  | [], _ => .ok none
  | f :: rest, name =>
    match f.item "filename" with
    | .error e => .error e
    | .ok (.str s) => if s = name then .ok (some f) else findFile rest name
    | .ok _ => findFile rest name

/-- The version bump inside `update_file`'s published branch: split the
current version on dots and replace the last component by its integer
successor. -/
def bumpVersion (current_version : String) : Except PyErr String := do
  let version_parts := strSplit current_version '.'
  let lastInt ← pyInt (version_parts.getLastD "")
  pure (String.intercalate "." (version_parts.dropLast ++ [toString (lastInt + 1)]))

/-- `Client.update_file(file_path, custom_filename, publish)`.  When the
associated deposition is published, POST the new-version action (expect
201) and switch to the draft id parsed from the `latest_draft` link; list
the draft's files (expect 200); delete a file matching the target filename
when present (expect 204); PUT the new bytes to the bucket, printing the
outcome; when `publish` was requested, call `publish()`; when the
deposition was published, GET the draft's metadata (expect 200), bump the
trailing component of its `version` (defaulting to `1.0.0` when absent)
and PUT it back (expect 200); finally either POST the publish action
(expect 202) and return its JSON, or return `response.json()` where
`response` is whatever response object the Python local last held (the
metadata PUT, the file DELETE, or the file-list GET). -/
def update_file (c : ClientState) (file_path : String)
    (custom_filename : Option String) (publishFlag : Bool)
    (isPubResp newVerResp filesResp deleteResp uploadResp : HttpResponse)
    (pubGetResp pubIsPubResp pubPostResp : HttpResponse)
    (metaGetResp metaPutResp finalPubResp : HttpResponse) :
    ZRes (Option JValue) := do
  if !c.associated then do
    zact (.print "Zenodo Client not associated ")
    pure none
  else do
    let url := c.endpoint ++ "/deposit/depositions/"
    let is_published ← _is_published c c.deposition_id isPubResp
    let draft_id ←
      if is_published.truthy then do
        let new_version_url := url ++ "/" ++ optIdStr c.deposition_id ++
          "/actions/newversion"
        zact (.request .post new_version_url .empty)
        if newVerResp.status ≠ 201 then
          zfail (.exception ("Failed to create new version. Status code: " ++
            toString newVerResp.status))
        else do
          let draft_data ← zlift newVerResp.json
          let links ← zlift (draft_data.item "links")
          let latest ← zlift (links.item "latest_draft")
          let latestStr ← zlift latest.asStr
          pure ((strSplit latestStr '/').getLastD "")
      else
        pure (optIdStr c.deposition_id)
    let files_url := url ++ "/" ++ draft_id ++ "/files"
    zact (.request .get files_url .empty)
    if filesResp.status ≠ 200 then
      zfail (.exception ("Failed to retrieve file list. Status code: " ++
        toString filesResp.status))
    else do
      let files ← zlift filesResp.json
      let entries ← match files with
                    | .arr xs => zok xs
                    | _ => zfail PyErr.typeError
      let filename_to_delete := pyOr custom_filename (pyBasename file_path)
      let file_to_delete ← zlift (findFile entries filename_to_delete)
      let deleted ←
        match file_to_delete with
        | some f => do
          let fid ← zlift (f.item "id")
          let delete_url := url ++ "/" ++ draft_id ++ "/files/" ++ pyStr fid
          zact (.request .delete delete_url .empty)
          if deleteResp.status ≠ 204 then
            zfail (.exception ("Failed to delete old file. Status code: " ++
              toString deleteResp.status))
          else
            pure true
        | none => pure false
      let filename := pyOr custom_filename (pyBasename file_path)
      zact (.request .put (pyOptStr c.bucket ++ "/" ++ filename)
        (.fileBytes file_path))
      if uploadResp.ok then
        zact (.print ("File successfully uploaded as " ++ filename ++ "!"))
      else do
        zact (.print "Oh no! Something went wrong")
        zact (.print ("Error: " ++ toString uploadResp.status ++ " - response text"))
      if publishFlag then
        let (pubActs, _) := publish c pubGetResp pubIsPubResp pubPostResp
        (pubActs, .ok ())
      else pure ()
      if is_published.truthy then do
        let metadata_url := url ++ "/" ++ draft_id
        zact (.request .get metadata_url .empty)
        if metaGetResp.status ≠ 200 then
          zfail (.exception ("Failed to retrieve metadata. Status code: " ++
            toString metaGetResp.status))
        else do
          let mjson ← zlift metaGetResp.json
          let metadata ← zlift (mjson.item "metadata")
          let mfields ← match metadata with
                        | .obj fs => zok fs
                        | _ => zfail PyErr.typeError
          let current_version ← zlift ((JValue.obj mfields).getD "version"
            (.str "1.0.0"))
          let curStr ← match current_version with
                       | .str s => zok s
                       | _ => zfail PyErr.typeError
          let new_version ← zlift (bumpVersion curStr)
          let mfields := setKey mfields "version" (.str new_version)
          zact (.request .put metadata_url
            (.json (.obj [("metadata", .obj mfields)])))
          if metaPutResp.status ≠ 200 then
            zfail (.exception ("Failed to update metadata. Status code: " ++
              toString metaPutResp.status))
          else
            pure ()
      else pure ()
      if publishFlag then do
        let publish_url := url ++ "/" ++ draft_id ++ "/actions/publish"
        zact (.request .post publish_url .empty)
        if finalPubResp.status ≠ 202 then
          zfail (.exception ("Failed to publish new version. Status code: " ++
            toString finalPubResp.status))
        else do
          let published_data ← zlift finalPubResp.json
          let doi ← zlift (published_data.item "doi")
          let cdoi ← zlift (published_data.item "conceptdoi")
          zact (.print ("Successfully updated deposition " ++
            optIdStr c.deposition_id ++ " with new file version."))
          zact (.print ("New version DOI: " ++ pyStr doi))
          zact (.print ("Concept DOI: " ++ pyStr cdoi))
          pure (some published_data)
      else do
        let response := if is_published.truthy then metaPutResp
                        else if deleted then deleteResp
                        else filesResp
        let unpublished_data ← zlift response.json
        pure (some unpublished_data)

/-- `Client._get_metadata(dep_id)`: GET the deposition; on a 200 return
the `metadata` sub-object, otherwise print a message and return `None`. -/
def _get_metadata (c : ClientState) (dep_id : Option Int)
    (resp : HttpResponse) : ZRes (Option JValue) := do
  let dep_id := match dep_id with
                | none => c.deposition_id
                | some d => some d
  zact (.request .get
    (c.endpoint ++ "/deposit/depositions/" ++ optIdStr dep_id) .empty)
  if resp.status = 200 then do
    let j ← zlift resp.json
    let m ← zlift (j.item "metadata")
    pure (some m)
  else do
    zact (.print ("Failed to fetch metadata. Status code: " ++
      toString resp.status))
    pure none

/-- `Client._set_metadata(new_metadata, dep_id, **kwargs)`: when no
deposition id is available print and return; otherwise read the current
metadata with `_get_metadata`, merge the new dictionary into it with
`dict.update` (taking the new dictionary whole when the read returned
`None`), apply the kwargs, and PUT `{"metadata": merged}`; print the
outcome.  The method returns `None`; the merged body is recoverable from
the PUT request in the trace. -/
def _set_metadata (c : ClientState) (new_metadata : List (String × JValue))
    (dep_id : Option Int) (kwargs : List (String × JValue))
    (getResp putResp : HttpResponse) : ZRes Unit := do
  let dep_id := match dep_id with
                | none => c.deposition_id
                | some d => some d
  match dep_id with
  | none => do
    zact (.print "Deposition is not set!")
    pure ()
  | some d => do
    zact (.print ("Setting metadata for deposition : " ++ toString d))
    let current ← _get_metadata c (some d) getResp
    let merged ← match current with
                 | none => zok new_metadata
                 | some (.obj cur) => zok (dictUpdate cur new_metadata)
                 | some _ => zfail PyErr.typeError
    let merged ← zlift (applyKwargs merged kwargs)
    zact (.request .put
      (c.endpoint ++ "/deposit/depositions/" ++ toString d)
      (.json (.obj [("metadata", .obj merged)])))
    if putResp.status = 200 then
      zact (.print "Metadata updated successfully!")
    else do
      zact (.print ("Failed to update metadata. Status code: " ++
        toString putResp.status))
      pure ()

/-- A well-behaved Zenodo server holding the metadata of the one deposition
under consideration. -/
structure MetaServer where
  meta : List (String × JValue)

/-- The server's answer to a deposition GET: a 200 whose body carries the
stored metadata. -/
def MetaServer.getResp (s : MetaServer) : HttpResponse :=
  { status := 200, body := some (.obj [("metadata", .obj s.meta)]) }

/-- The first PUT request of a trace, with its JSON body. -/
def firstPutBody : List Action → Option JValue
  | [] => none
  | .request .put _ (.json j) :: _ => some j
  | _ :: rest => firstPutBody rest

/-- The server's handling of a metadata PUT (the API's update-metadata
endpoint): store the body's `metadata` object. -/
def MetaServer.applyPut (s : MetaServer) (body : JValue) : MetaServer :=
  match body with
  | .obj fields =>
    match lookupKey fields "metadata" with
    | some (.obj m) => { meta := m }
    | _ => s
  | _ => s

/-- `_set_metadata` followed by `_get_metadata` against the same
well-behaved server: run the set with the GET answered from the server
state and the PUT answered 200, apply the PUT body of the trace to the
server, then run the get against the updated server and return the
resulting metadata fields. -/
def setThenGetMetadata (c : ClientState) (s : MetaServer)
    (new_metadata : List (String × JValue)) (kwargs : List (String × JValue)) :
    Option (List (String × JValue)) :=
  let setRun := _set_metadata c new_metadata none kwargs s.getResp
    { status := 200, body := some (.obj []) }
  let s1 := match firstPutBody setRun.1 with
            | some body => s.applyPut body
            | none => s
  match (_get_metadata c none s1.getResp).2 with
  | .ok (some (.obj m)) => some m
  | _ => none

/-- Deposition GET response of the set-project scenario (the shape the
repository's tests mock). -/
def c8resp : HttpResponse :=
  ⟨200, some (.obj [("id", .num 1), ("conceptrecid", .str "77"),
                    ("links", .obj [("bucket", .str "B")]), ("title", .str "T")])⟩

/-- A representative associated client session used as a concrete instance
in several theorems. -/
def demoClient : ClientState :=
  { endpoint := "https://zenodo.org/api"
    doi_pattern := "^10\\.5281/zenodo\\.\\d+$"
    title := some "My data"
    bucket := some "https://zenodo.org/api/files/bkt"
    deposition_id := some 42
    sandbox := false
    token := some "tok"
    concept_id := some "41"
    associated := true }

/-- A deposition file listing that does not contain the uploaded filename. -/
def demoFiles : JValue :=
  .arr [.obj [("filename", .str "other.txt"), ("id", .str "fid1")]]

/-- A deposition file listing that does contain the uploaded filename. -/
def matchedFiles : JValue :=
  .arr [.obj [("filename", .str "data.nc"), ("id", .str "fid2")]]

/-- A placeholder 200 response for oracle slots a run never consumes. -/
def dummyResp : HttpResponse := ⟨200, some .null⟩

/-- A draft deposition JSON, used as the body of the metadata PUT answer. -/
def draftJson : JValue := .obj [("id", .num 99), ("state", .str "unsubmitted")]

/-- An associated client session used in the delete-project witness. -/
def c1state : ClientState :=
  { endpoint := "https://zenodo.org/api"
    doi_pattern := "^10\\.5281/zenodo\\.\\d+$"
    title := some "T"
    bucket := some "B"
    deposition_id := some 7
    sandbox := false
    token := some "tok"
    concept_id := some "77"
    associated := true }

/-- Server metadata fixture for the metadata round-trip witness. -/
def c4meta : List (String × JValue) :=
  [("title", .str "Old title"), ("doi", .str "10.5281/zenodo.7")]

theorem lookup_setKey_self (m : List (String × JValue)) (k : String) (v : JValue) :
    lookupKey (setKey m k v) k = some v := by
  induction m with
  | nil => simp [setKey, lookupKey]
  | cons p rest ih =>
    obtain ⟨a, b⟩ := p
    by_cases h : a = k
    · simp [setKey, h, lookupKey]
    · simp [setKey, h, lookupKey, ih]

theorem lookup_setKey_other (m : List (String × JValue)) (k k' : String)
    (h : k' ≠ k) (v : JValue) :
    lookupKey (setKey m k v) k' = lookupKey m k' := by
  induction m with
  | nil => simp [setKey, lookupKey, Ne.symm h]
  | cons p rest ih =>
    obtain ⟨a, b⟩ := p
    by_cases ha : a = k
    · subst ha
      simp [setKey, lookupKey, Ne.symm h]
    · by_cases ha' : a = k'
      · simp [setKey, ha, lookupKey, ha', h]
      · simp [setKey, ha, lookupKey, ha', ih]

/-- C1 counterexample: constructing a client with a non-None deposition_id
argument leaves associated False while deposition_id is set, so the claimed
invariant `associated == (deposition_id is not None)` fails right after
construction. -/
theorem C1_invariant_counterexample :
    ¬ associatedInvariant (clientInit none none (some 5) false (some "tok") none) := by
  decide

/-- C1 (amended): after construction `associated` is always False, so the
invariant `associated == (deposition_id is not None)` holds after
construction exactly when the deposition_id argument is None; and when
`_delete_project` successfully deletes the currently associated deposition
it resets title, bucket, deposition_id and concept_id to None but leaves
`associated` unchanged, so for a previously associated session the
invariant is violated afterwards. -/
theorem C1_invariant_amended :
    (∀ (t b : Option String) (d : Option Int) (sb : Bool) (tok cfg : Option String),
      (clientInit t b d sb tok cfg).associated = false ∧
      (associatedInvariant (clientInit t b d sb tok cfg) ↔ d = none)) ∧
    (∀ (c : ClientState) (resp : HttpResponse), resp.status = 204 →
      (_delete_project c none resp).2 =
        .ok { c with
              title := none, bucket := none, deposition_id := none,
              concept_id := none } ∧
      (c.associated = true →
        ¬ associatedInvariant { c with
            title := none, bucket := none, deposition_id := none,
            concept_id := none })) := by
  constructor
  · intro t b d sb tok cfg
    constructor
    · rfl
    · cases d <;> simp [associatedInvariant, clientInit]
  · intro c resp h
    constructor
    · unfold _delete_project
      simp [h]
    · intro ha
      simp [associatedInvariant, ha]

/-- C1 witness: the amended statement applied to concrete inputs. -/
theorem C1_invariant_witness :
    (clientInit none none (some 3) false (some "t") none).associated = false ∧
    (_delete_project c1state none ⟨204, none⟩).2 =
      .ok { c1state with
            title := none, bucket := none, deposition_id := none,
            concept_id := none } ∧
    ¬ associatedInvariant { c1state with
        title := none, bucket := none, deposition_id := none,
        concept_id := none } :=
  ⟨(C1_invariant_amended.1 none none (some 3) false (some "t") none).1,
   (C1_invariant_amended.2 c1state ⟨204, none⟩ rfl).1,
   (C1_invariant_amended.2 c1state ⟨204, none⟩ rfl).2 rfl⟩

/-- C2: create_project with a title issues exactly one POST with an empty
JSON body to the depositions collection and then exactly one PUT whose
body's metadata.title is that title with the unsupplied fields set to the
default placeholders (upload_type other, placeholder description, a single
placeholder creator), and on success the session ends associated with the
deposition id and bucket taken from the POST response. -/
theorem C2_create_project (c : ClientState) (stP stQ : Int)
    (hP : stP < 400) (hQ : stQ < 400) (n : Int) (b : String) (pb : JValue) :
    create_project c (some "X") none none
      ⟨stP, some (.obj [("id", .num n), ("links", .obj [("bucket", .str b)])])⟩
      ⟨stQ, some pb⟩ =
    ([.request .post (c.endpoint ++ "/deposit/depositions") (.json (.obj [])),
      .request .put (c.endpoint ++ "/deposit/depositions/" ++ toString n)
        (.json (.obj [("metadata", .obj
          [("title", .str "X"),
           ("upload_type", .str "other"),
           ("description", .str "Description goes here"),
           ("creators", .arr [.obj [("name", .str "Creator goes here")]])])]))],
     .ok { c with
           deposition_id := some n, bucket := some b, title := some "X",
           associated := true }) := by
  simp [create_project, change_metadata, applyKwargs, pyOr, optIdStr,
    HttpResponse.ok, HttpResponse.json, JValue.item, JValue.asInt, JValue.asStr,
    lookupKey, Bind.bind, zbind, zok, zlift, zact, pure, hP, hQ]

/-- C2 witness: the create_project theorem applied at the tested mock
values (id 1234, bucket BKT). -/
theorem C2_create_project_witness :
    create_project demoClient (some "X") none none
      ⟨201, some (.obj [("id", .num 1234), ("links", .obj [("bucket", .str "BKT")])])⟩
      ⟨200, some .null⟩ =
    ([.request .post (demoClient.endpoint ++ "/deposit/depositions") (.json (.obj [])),
      .request .put (demoClient.endpoint ++ "/deposit/depositions/" ++ toString (1234 : Int))
        (.json (.obj [("metadata", .obj
          [("title", .str "X"),
           ("upload_type", .str "other"),
           ("description", .str "Description goes here"),
           ("creators", .arr [.obj [("name", .str "Creator goes here")]])])]))],
     .ok { demoClient with
           deposition_id := some 1234, bucket := some "BKT", title := some "X",
           associated := true }) :=
  C2_create_project demoClient 201 200 (by decide) (by decide) 1234 "BKT" .null

/-- C3: contrary to the claim, update_file with publish False on an
unpublished deposition does not return the draft deposition's JSON: when no
old file matched it returns the body of the file-list GET (the files
array), and when an old file was deleted it raises a JSON decode error
because the final `response.json()` runs on the bodyless 204 DELETE
response.  Both behaviours are evaluated here at concrete inputs. -/
theorem C3_update_file_result_divergence :
    (update_file demoClient "/tmp/data.nc" none false
      ⟨200, some (.obj [("submitted", .bool false)])⟩
      dummyResp
      ⟨200, some demoFiles⟩
      dummyResp
      ⟨201, some .null⟩
      dummyResp dummyResp dummyResp dummyResp dummyResp dummyResp).2 =
      .ok (some demoFiles) ∧
    (update_file demoClient "/tmp/data.nc" none false
      ⟨200, some (.obj [("submitted", .bool false)])⟩
      dummyResp
      ⟨200, some matchedFiles⟩
      ⟨204, none⟩
      ⟨201, some .null⟩
      dummyResp dummyResp dummyResp dummyResp dummyResp dummyResp).2 =
      .error .jsonDecodeError :=
  ⟨rfl, rfl⟩

/-- C4: a set-metadata of a single binding followed by a get-metadata
against the same well-behaved server yields the stored metadata updated
with that binding: the new key maps to the new value and every other key
keeps its previous value (merge, not replace). -/
theorem C4_metadata_roundtrip (c : ClientState) (d : Int)
    (hdep : c.deposition_id = some d) (M : List (String × JValue))
    (k : String) (v : JValue) (k' : String) (hk : k' ≠ k) :
    setThenGetMetadata c ⟨M⟩ [(k, v)] [] = some (dictUpdate M [(k, v)]) ∧
    lookupKey (dictUpdate M [(k, v)]) k = some v ∧
    lookupKey (dictUpdate M [(k, v)]) k' = lookupKey M k' := by
  obtain ⟨ep, dp, ti, bu, di, sb, tk, ci, asc⟩ := c
  simp only at hdep
  subst hdep
  exact ⟨rfl, lookup_setKey_self M k v, lookup_setKey_other M k k' hk v⟩

/-- C4 witness: the round-trip applied to a concrete metadata store and a
concrete new binding. -/
theorem C4_metadata_roundtrip_witness :
    setThenGetMetadata demoClient ⟨c4meta⟩ [("language", .str "eng")] [] =
      some (dictUpdate c4meta [("language", .str "eng")]) ∧
    lookupKey (dictUpdate c4meta [("language", .str "eng")]) "language" =
      some (.str "eng") ∧
    lookupKey (dictUpdate c4meta [("language", .str "eng")]) "title" =
      lookupKey c4meta "title" :=
  C4_metadata_roundtrip demoClient 42 rfl c4meta "language" (.str "eng")
    "title" (by decide)

/-- C5: upload_zip evaluated at concrete inputs.  An output_file with a
non-zip extension (.rar) raises, and an already existing output path raises
before any archive-building action is emitted — both as the claim states;
but an output_file with no extension also raises the extension error
instead of having .zip appended, because the unreachable append branch sits
behind the membership check that already rejected the empty extension. -/
theorem C5_upload_zip_validation :
    (upload_zip demoClient "/data/src" (some "out.rar") false true false
      dummyResp dummyResp dummyResp dummyResp).2 =
      .error (.exception "Extension must be in ['.zip']") ∧
    (upload_zip demoClient "/data/src" (some "archive") false true false
      dummyResp dummyResp dummyResp dummyResp).2 =
      .error (.exception "Extension must be in ['.zip']") ∧
    upload_zip demoClient "/data/src" (some "out.zip") false true true
      dummyResp dummyResp dummyResp dummyResp =
      ([], .error (.exception "out.zip already exists. Please chance the name")) :=
  ⟨rfl, rfl, rfl⟩

/-- C6 counterexample: with an associated client, a valid bucket URL and a
dst_path naming a directory that does not exist, download_file raises
FileNotFoundError instead of reporting the failure and returning. -/
theorem C6_download_counterexample :
    (download_file demoClient (some "f.txt") (some "/nope") false
      ⟨200, some .null⟩).2 =
    .error (.fileNotFoundError "/nope does not exist") := rfl

/-- C6 (amended): for download_file with an associated bucket that passes
the URL check, a GET that does not succeed is reported with a printed
message and the call returns without raising — both with no dst_path and
with a dst_path that is an existing directory; but a dst_path naming a
directory that does not exist makes the call raise FileNotFoundError
(regardless of the GET outcome). -/
theorem C6_download_amended (c : ClientState) (bucket : String)
    (hb : c.bucket = some bucket) (hv : validate_url bucket = true)
    (fname : String) (getResp : HttpResponse) (dstIsDir : Bool) :
    (getResp.ok = false →
      (download_file c (some fname) none dstIsDir getResp).2 = .ok () ∧
      Action.print (" ** Something went wrong, check that " ++ fname ++
          " is in your poject  ** ") ∈
        (download_file c (some fname) none dstIsDir getResp).1) ∧
    (∀ dst : String, dst ≠ "" →
      (download_file c (some fname) (some dst) false getResp).2 =
        .error (.fileNotFoundError (dst ++ " does not exist"))) ∧
    (∀ dst : String, dst ≠ "" → getResp.ok = false →
      (download_file c (some fname) (some dst) true getResp).2 = .ok ()) := by
  refine ⟨?_, ?_, ?_⟩
  · intro hok
    constructor
    · simp [download_file, hb, hv, hok, pyOptStr]
    · simp [download_file, hb, hv, hok, pyOptStr]
  · intro dst hdst
    simp [download_file, hb, hv, hdst, pyOptStr]
  · intro dst hdst hok
    simp [download_file, hb, hv, hdst, hok, pyOptStr]

/-- C6 witness: the amended statement applied to a failing GET and to the
concrete missing and existing destination directories. -/
theorem C6_download_amended_witness :
    ((download_file demoClient (some "data.nc") none false ⟨500, none⟩).2 =
       .ok () ∧
     Action.print (" ** Something went wrong, check that " ++ "data.nc" ++
         " is in your poject  ** ") ∈
       (download_file demoClient (some "data.nc") none false ⟨500, none⟩).1) ∧
    (download_file demoClient (some "data.nc") (some "/nope") false
      ⟨500, none⟩).2 = .error (.fileNotFoundError ("/nope" ++ " does not exist")) ∧
    (download_file demoClient (some "data.nc") (some "/tmp") true
      ⟨500, none⟩).2 = .ok () :=
  ⟨(C6_download_amended demoClient "https://zenodo.org/api/files/bkt" rfl rfl
      "data.nc" ⟨500, none⟩ false).1 rfl,
   (C6_download_amended demoClient "https://zenodo.org/api/files/bkt" rfl rfl
      "data.nc" ⟨500, none⟩ false).2.1 "/nope" (by decide),
   (C6_download_amended demoClient "https://zenodo.org/api/files/bkt" rfl rfl
      "data.nc" ⟨500, none⟩ false).2.2 "/tmp" (by decide) rfl⟩

/-- C7: when the fetched deposition carries a publish link and the
deposition is already published, publish() prints the explanatory messages
and returns None without issuing any POST; when it is not yet published,
publish() issues exactly one POST to the publish link and returns the
response JSON. -/
theorem C7_publish_guard (c : ClientState) (hassoc : c.associated = true)
    (d : Int) (hdep : c.deposition_id = some d) (purl : String)
    (hpurl : (JValue.str purl).truthy = true)
    (sub pj : JValue) (stPost : Int) (hpost : stPost < 400) :
    (sub.truthy = true →
      publish c ⟨200, some (.obj [("links", .obj [("publish", .str purl)])])⟩
        ⟨200, some (.obj [("submitted", sub)])⟩ ⟨stPost, some pj⟩ =
      ([.request .get (c.endpoint ++ "/deposit/depositions/" ++ toString d) .empty,
        .request .get (c.endpoint ++ "/deposit/depositions/" ++ toString d) .empty,
        .print "This deposition was published yet. ",
        .print "To publish it again please remove 'doi' entry from metadata."],
       none)) ∧
    (sub.truthy = false →
      publish c ⟨200, some (.obj [("links", .obj [("publish", .str purl)])])⟩
        ⟨200, some (.obj [("submitted", sub)])⟩ ⟨stPost, some pj⟩ =
      ([.request .get (c.endpoint ++ "/deposit/depositions/" ++ toString d) .empty,
        .request .get (c.endpoint ++ "/deposit/depositions/" ++ toString d) .empty,
        .request .post purl .empty,
        .print "Deposition published successfully!"],
       some pj)) := by
  constructor
  · intro hsub
    simp [publish, _get_depositions_by_id, _is_published, optIdStr, hassoc, hdep,
      HttpResponse.ok, HttpResponse.json, HttpResponse.raise_for_status,
      JValue.item, JValue.getD, lookupKey, pyStr,
      Bind.bind, zbind, zok, zlift, zact, pure, hpurl, hsub, not_le.mpr hpost]
  · intro hsub
    simp [publish, _get_depositions_by_id, _is_published, optIdStr, hassoc, hdep,
      HttpResponse.ok, HttpResponse.json, HttpResponse.raise_for_status,
      JValue.item, JValue.getD, lookupKey, pyStr,
      Bind.bind, zbind, zok, zlift, zact, pure, hpurl, hsub, not_le.mpr hpost]

/-- C7 witness: the publish guard applied to the already-published and to
the unpublished case at concrete inputs. -/
theorem C7_publish_guard_witness :
    publish demoClient
      ⟨200, some (.obj [("links", .obj [("publish",
        .str "https://zenodo.org/api/deposit/depositions/42/actions/publish")])])⟩
      ⟨200, some (.obj [("submitted", .bool true)])⟩ ⟨202, some draftJson⟩ =
    ([.request .get (demoClient.endpoint ++ "/deposit/depositions/" ++
        toString (42 : Int)) .empty,
      .request .get (demoClient.endpoint ++ "/deposit/depositions/" ++
        toString (42 : Int)) .empty,
      .print "This deposition was published yet. ",
      .print "To publish it again please remove 'doi' entry from metadata."],
     none) ∧
    publish demoClient
      ⟨200, some (.obj [("links", .obj [("publish",
        .str "https://zenodo.org/api/deposit/depositions/42/actions/publish")])])⟩
      ⟨200, some (.obj [("submitted", .bool false)])⟩ ⟨202, some draftJson⟩ =
    ([.request .get (demoClient.endpoint ++ "/deposit/depositions/" ++
        toString (42 : Int)) .empty,
      .request .get (demoClient.endpoint ++ "/deposit/depositions/" ++
        toString (42 : Int)) .empty,
      .request .post "https://zenodo.org/api/deposit/depositions/42/actions/publish" .empty,
      .print "Deposition published successfully!"],
     some draftJson) :=
  ⟨(C7_publish_guard demoClient rfl 42 rfl
      "https://zenodo.org/api/deposit/depositions/42/actions/publish"
      (by decide) (.bool true) draftJson 202 (by decide)).1 rfl,
   (C7_publish_guard demoClient rfl 42 rfl
      "https://zenodo.org/api/deposit/depositions/42/actions/publish"
      (by decide) (.bool false) draftJson 202 (by decide)).2 rfl⟩

/-- C8: for any starting session, set_project 1 against the mocked
deposition GET response with id 1, conceptrecid 77, links.bucket B and
title T issues the two GETs of that resource (the second supplying the
bucket) and leaves the session with deposition_id 1, concept_id 77,
bucket B, title T and associated True. -/
theorem C8_set_project_scenario : ∀ c : ClientState,
    set_project c 1 c8resp c8resp =
      ([.request .get (c.endpoint ++ "/deposit/depositions/" ++ "1") .empty,
        .request .get (c.endpoint ++ "/deposit/depositions/" ++ "1") .empty],
       .ok { c with
             title := some "T", bucket := some "B",
             deposition_id := some 1, concept_id := some "77",
             associated := true }) := by
  intro c
  rfl

/-- C9: the version bump of update_file's published branch increments the
trailing numeric component of the dotted version by exactly one (and turns
the default 1.0.0, used when the field is absent, into 1.0.1); and in a
published run with publish False the trace after the file upload is exactly
a GET of the draft's metadata followed by a PUT of that metadata with its
version field replaced by the bumped value, the PUT response being what the
call returns. -/
theorem C9_version_bump :
    (∀ (v : String) (parts : List String) (i : Int),
      strSplit v '.' = parts → pyInt (parts.getLastD "") = .ok i →
      bumpVersion v =
        .ok (String.intercalate "." (parts.dropLast ++ [toString (i + 1)]))) ∧
    bumpVersion "1.0.0" = .ok "1.0.1" ∧
    (∀ v newV : String, bumpVersion v = .ok newV →
      update_file demoClient "/tmp/data.nc" none false
        ⟨200, some (.obj [("submitted", .bool true)])⟩
        ⟨201, some (.obj [("links", .obj [("latest_draft",
            .str "https://zenodo.org/api/deposit/depositions/99")])])⟩
        ⟨200, some (.arr [])⟩
        dummyResp
        ⟨201, some .null⟩
        dummyResp dummyResp dummyResp
        ⟨200, some (.obj [("metadata",
            .obj [("title", .str "T"), ("version", .str v)])])⟩
        ⟨200, some draftJson⟩
        dummyResp =
      ([.request .get "https://zenodo.org/api/deposit/depositions/42" .empty,
        .request .post "https://zenodo.org/api/deposit/depositions//42/actions/newversion" .empty,
        .request .get "https://zenodo.org/api/deposit/depositions//99/files" .empty,
        .request .put "https://zenodo.org/api/files/bkt/data.nc" (.fileBytes "/tmp/data.nc"),
        .print "File successfully uploaded as data.nc!",
        .request .get "https://zenodo.org/api/deposit/depositions//99" .empty,
        .request .put "https://zenodo.org/api/deposit/depositions//99"
          (.json (.obj [("metadata", .obj [("title", .str "T"),
            ("version", .str newV)])]))],
       .ok (some draftJson))) ∧
    update_file demoClient "/tmp/data.nc" none false
      ⟨200, some (.obj [("submitted", .bool true)])⟩
      ⟨201, some (.obj [("links", .obj [("latest_draft",
          .str "https://zenodo.org/api/deposit/depositions/99")])])⟩
      ⟨200, some (.arr [])⟩
      dummyResp
      ⟨201, some .null⟩
      dummyResp dummyResp dummyResp
      ⟨200, some (.obj [("metadata", .obj [("title", .str "T")])])⟩
      ⟨200, some draftJson⟩
      dummyResp =
    ([.request .get "https://zenodo.org/api/deposit/depositions/42" .empty,
      .request .post "https://zenodo.org/api/deposit/depositions//42/actions/newversion" .empty,
      .request .get "https://zenodo.org/api/deposit/depositions//99/files" .empty,
      .request .put "https://zenodo.org/api/files/bkt/data.nc" (.fileBytes "/tmp/data.nc"),
      .print "File successfully uploaded as data.nc!",
      .request .get "https://zenodo.org/api/deposit/depositions//99" .empty,
      .request .put "https://zenodo.org/api/deposit/depositions//99"
        (.json (.obj [("metadata", .obj [("title", .str "T"),
          ("version", .str "1.0.1")])]))],
     .ok (some draftJson)) := by
  refine ⟨?_, rfl, ?_, rfl⟩
  · intro v parts i hsplit hint
    simp only [bumpVersion, hsplit, hint, Bind.bind, Except.bind, pure,
      Except.pure]
  · intro v newV hbump
    simp [update_file, _is_published, optIdStr, pyOr, pyBasename, pyOptStr,
      findFile, setKey, lookupKey, HttpResponse.ok, HttpResponse.json,
      HttpResponse.raise_for_status, JValue.item, JValue.getD, JValue.asStr,
      JValue.truthy, pyStr, demoClient, Bind.bind, Except.bind, zbind, zok,
      zlift, zact, zfail, pure, Except.pure, hbump]
    try rfl

/-- C9 witness: the bump arithmetic applied to the version 2.3.7 and the
published-branch run applied with the resulting version 2.3.8. -/
theorem C9_version_bump_witness :
    bumpVersion "2.3.7" =
      .ok (String.intercalate "."
        ((["2", "3", "7"] : List String).dropLast ++ [toString ((7 : Int) + 1)])) ∧
    update_file demoClient "/tmp/data.nc" none false
      ⟨200, some (.obj [("submitted", .bool true)])⟩
      ⟨201, some (.obj [("links", .obj [("latest_draft",
          .str "https://zenodo.org/api/deposit/depositions/99")])])⟩
      ⟨200, some (.arr [])⟩
      dummyResp
      ⟨201, some .null⟩
      dummyResp dummyResp dummyResp
      ⟨200, some (.obj [("metadata",
          .obj [("title", .str "T"), ("version", .str "2.3.7")])])⟩
      ⟨200, some draftJson⟩
      dummyResp =
    ([.request .get "https://zenodo.org/api/deposit/depositions/42" .empty,
      .request .post "https://zenodo.org/api/deposit/depositions//42/actions/newversion" .empty,
      .request .get "https://zenodo.org/api/deposit/depositions//99/files" .empty,
      .request .put "https://zenodo.org/api/files/bkt/data.nc" (.fileBytes "/tmp/data.nc"),
      .print "File successfully uploaded as data.nc!",
      .request .get "https://zenodo.org/api/deposit/depositions//99" .empty,
      .request .put "https://zenodo.org/api/deposit/depositions//99"
        (.json (.obj [("metadata", .obj [("title", .str "T"),
          ("version", .str "2.3.8")])]))],
     .ok (some draftJson)) :=
  ⟨C9_version_bump.1 "2.3.7" ["2", "3", "7"] 7 rfl rfl,
   C9_version_bump.2.2.1 "2.3.7" "2.3.8" rfl⟩

/-- C10: upload_file with publish False and delete_file return the client
state exactly as received in every branch — missing path, unassociated
guard, missing bucket, and request issued — so no session field is
modified. -/
theorem C10_no_state_change :
    ∀ (c : ClientState) (fp cf : Option String) (fe : Bool)
      (r1 r2 r3 r4 : HttpResponse) (fn : Option String),
    (upload_file c fp cf false fe r1 r2 r3 r4).2 = c ∧
    (delete_file c fn).2 = c := by
  intro c fp cf fe r1 r2 r3 r4 fn
  constructor
  · unfold upload_file
    rcases fp with _ | p
    · cases c.associated <;> simp
    · cases c.associated
      · simp
      · cases fe
        · simp
        · rcases hb : c.bucket with _ | b <;> simp [hb]
  · unfold delete_file
    cases c.associated <;> simp

end Zenodopy
